import Mathlib

/-!
Verification development for the `finmetry` 5paisa client layer
(`src/finmetry/client_5paisa/base.py`).

The Python module defines two classes:

* `ScripMaster` — loads a CSV symbol table and answers point lookups
  (`get_scrip`) for a list of `Stock` objects, caching results on the stocks;
* `Client5paisa` — a session client wrapping the `py5paisa` SDK, with
  historical-data download, market depth/feed polling, a websocket
  market-data read, and option-chain/expiry queries.

This file shallow-embeds that module.  External effects (HTTP requests,
websocket reads, the wall clock) are passed in as explicit oracle arguments,
and each operation additionally returns the list of requests it issued so
that "no request was made" is a provable statement.  Pandas dataframes are
modelled as Lean lists of typed rows; in-place mutation of `Stock` objects is
modelled by returning the updated stock values.
-/

set_option maxHeartbeats 1000000

/-- Python exception values raised by the embedded code. -/
inductive PyErr where
  | valueError (msg : String)
  | typeError (msg : String)
  | attributeError (msg : String)
  | indexError (msg : String)
  | keyError (msg : String)
deriving DecidableEq, Repr

/-- `true` exactly on `PyErr.typeError`. -/
def PyErr.isTypeError : PyErr → Bool
  | .typeError _ => true
  | _ => false

/-- `true` exactly on `PyErr.attributeError`. -/
def PyErr.isAttributeError : PyErr → Bool
  | .attributeError _ => true
  | _ => false

instance {ε α : Type} [DecidableEq ε] [DecidableEq α] : DecidableEq (Except ε α)
  | .ok a, .ok b =>
    if h : a = b then isTrue (by rw [h]) else isFalse (by intro hh; cases hh; exact h rfl)
  | .ok _, .error _ => isFalse (by intro h; cases h)
  | .error _, .ok _ => isFalse (by intro h; cases h)
  | .error e, .error f =>
    if h : e = f then isTrue (by rw [h]) else isFalse (by intro hh; cases hh; exact h rfl)

/-- Python `str.upper`, written structurally on the character list so that it
evaluates by kernel reduction (the symbols involved are ASCII). -/
def pyStrUpper (s : String) : String :=
  String.mk (s.data.map Char.toUpper)

/-- Helper for `pySplit`: split a character list on a separator character. -/
def pySplitChar (sep : Char) : List Char → List (List Char)
  | [] => [[]]
  | c :: cs =>
    let r := pySplitChar sep cs
    if c = sep then [] :: r
    else
      match r with
      | [] => [[c]]
      | g :: gs => (c :: g) :: gs

/-- Python `str.split(sep)` for a one-character separator (all separators used
by the embedded code — `" "`, `"-"`, `":"`, `"+"`, `"("` — are single
characters). -/
def pySplit (s : String) (sep : Char) : List String :=
  (pySplitChar sep s.data).map String.mk

/-- Accumulating digit reader: `none` when a non-digit appears or no digit was
read at all. -/
def pyToNatCore : List Char → Option Nat → Option Nat
  | [], acc => acc
  | c :: cs, acc =>
    if c.isDigit then pyToNatCore cs (some ((acc.getD 0) * 10 + (c.toNat - 48)))
    else none

/-- Read a decimal `Nat` from a string (digits only). -/
def pyToNat (s : String) : Option Nat :=
  pyToNatCore s.data none

/-- Python `int(str)` on a decimal literal with an optional sign. -/
def pyToInt (s : String) : Option Int :=
  match s.data with
  | '-' :: cs => (pyToNatCore cs none).map (fun n => -(n : Int))
  | '+' :: cs => (pyToNatCore cs none).map (fun n => (n : Int))
  | cs => (pyToNatCore cs none).map (fun n => (n : Int))

/-- Python slice `s[n:]`, structurally on the character list. -/
def pyStrDrop (s : String) (n : Nat) : String :=
  String.mk (s.data.drop n)

/-- Python slice `s[:-n]` (drop `n` characters from the right). -/
def pyStrDropRight (s : String) (n : Nat) : String :=
  String.mk (s.data.take (s.data.length - n))

/-- A parsed timestamp, as produced by `pandas.to_datetime`. -/
structure PyDateTime where
  year : Nat
  month : Nat
  day : Nat
  hour : Nat
  minute : Nat
  second : Nat
deriving DecidableEq, Repr

/-- Parser for the strict format `"%Y-%m-%d %H:%M:%S"` used on the `Expiry`
column (`pd.to_datetime(..., format="%Y-%m-%d %H:%M:%S")`). -/
def parseYmdHms (s : String) : Option PyDateTime :=
  match pySplit s ' ' with
  | [d, t] =>
    match pySplit d '-', pySplit t ':' with
    | [y, mo, dd], [hh, mi, ss] =>
      match pyToNat y, pyToNat mo, pyToNat dd, pyToNat hh, pyToNat mi, pyToNat ss with
      | some a, some b, some c, some e, some f, some g =>
        some ⟨a, b, c, e, f, g⟩
      | _, _, _, _, _, _ => none
    | _, _ => none
  | _ => none

/-- Parser for a bare `"%Y-%m-%d"` date. -/
def parseYmd (s : String) : Option PyDateTime :=
  match pySplit s '-' with
  | [y, mo, dd] =>
    match pyToNat y, pyToNat mo, pyToNat dd with
    | some a, some b, some c => some ⟨a, b, c, 0, 0, 0⟩
    | _, _, _ => none
  | _ => none

/-- Flexible `pd.to_datetime` (no `format=` argument), as used on the
`Datetime` column of historical candles: accepts either a full timestamp or a
bare date. -/
def pdToDatetime (s : String) : Option PyDateTime :=
  (parseYmdHms s).orElse (fun _ => parseYmd s)

/-- One raw row of the scrip-master CSV, before `ScripMaster.__init__`
post-processes it.  `Expiry` is `none` where the CSV cell is empty (pandas
`NaN`, which `to_datetime` passes through as `NaT`). -/
structure RawRow where
  Exch : String
  ExchType : String
  Symbol : String
  Expiry : Option String
  Series : String
  Scripcode : Int
  Name : String
deriving DecidableEq, Repr

/-- One row of the loaded scrip-master table, after `ScripMaster.__init__`
parsed `Expiry` and rewrote `Name` and `Symbol`. -/
structure Row where
  Exch : String
  ExchType : String
  Symbol : String
  Expiry : Option PyDateTime
  Series : String
  Scripcode : Int
  Name : String
deriving DecidableEq, Repr

/-- The per-row effect of `ScripMaster.__init__` after the CSV read:
`self.data["Expiry"] = pd.to_datetime(self.data["Expiry"], format="%Y-%m-%d %H:%M:%S")`,
`self.data["Name"] = self.data["Name"].apply(str.upper)`,
`self.data["Symbol"] = self.data["Name"]`. -/
def loadRow (r : RawRow) : Except PyErr Row :=
  match r.Expiry with
  | none =>
    .ok { Exch := r.Exch, ExchType := r.ExchType, Symbol := pyStrUpper r.Name,
          Expiry := none, Series := r.Series, Scripcode := r.Scripcode,
          Name := pyStrUpper r.Name }
  | some e =>
    match parseYmdHms e with
    | none => .error (.valueError ("time data " ++ e ++ " does not match format %Y-%m-%d %H:%M:%S"))
    | some d =>
      .ok { Exch := r.Exch, ExchType := r.ExchType, Symbol := pyStrUpper r.Name,
            Expiry := some d, Series := r.Series, Scripcode := r.Scripcode,
            Name := pyStrUpper r.Name }

/-- The scrip-master symbol table (`ScripMaster.data`). -/
structure ScripMaster where
  data : List Row
deriving DecidableEq, Repr

/-- `ScripMaster.__init__` after the CSV itself has been read into raw rows
(the CSV/HTTP read is external to this module): parse `Expiry`, uppercase
`Name`, overwrite `Symbol` with the uppercased `Name`. -/
def ScripMaster.load (rows : List RawRow) : Except PyErr ScripMaster :=
  (rows.mapM loadRow).map ScripMaster.mk

/-- `ScripMaster.save`: `self.data.to_csv(filepath)` serializes the current
table and leaves the object untouched; we model the written content as the
row list itself. -/
def ScripMaster.save (sm : ScripMaster) : ScripMaster × List Row :=
  (sm, sm.data)

/-- One historical OHLCV bar after reshaping (`Datetime` parsed, used as the
index).  Prices and volumes are modelled as integers; no claim involves their
arithmetic. -/
structure Bar where
  Datetime : PyDateTime
  Open : Int
  High : Int
  Low : Int
  Close : Int
  Volume : Int
deriving DecidableEq, Repr

/-- Modelled from the spec: the `Stock` class lives in
`src/finmetry/stock_base.py`, which is not part of the sources provided; the
spec (§3) describes a `StockRef` with immutable identity
(symbol, exchange, segment) and mutable cache fields holding the last-fetched
historical table and option-chain table.  `base.py` additionally reads and
writes a `scrip` cache attribute on it inside `try/except`.  An attribute that
was never assigned raises `AttributeError` on access, which `Option` models as
`none`.  Option-chain rows are opaque payloads the client stores verbatim,
modelled as strings. -/
structure Stock where
  symbol : String
  exchange : String
  exchange_type : String
  scrip : Option (List Row) := none
  data : Option (Sum String (List Bar)) := none
  option_chain : Option (List String) := none
deriving DecidableEq, Repr

/-- The row filter of `ScripMaster.get_scrip`:
`f1 = (Exch == s1.exchange) & (ExchType == s1.exchange_type) & (Symbol == s1.symbol)`
and `f2 = (Series == "EQ") | (Series == "XX")`; a row is kept when `f1 & f2`. -/
def rowMatches (s : Stock) (r : Row) : Bool :=
  (r.Exch == s.exchange && r.ExchType == s.exchange_type && r.Symbol == s.symbol)
    && (r.Series == "EQ" || r.Series == "XX")

/-- `d1[f1 & f2]`: the rows of the table matching stock `s`. -/
def matchesFor (data : List Row) (s : Stock) : List Row :=
  data.filter (rowMatches s)

/-- The `for s1 in stocklist` loop body of `ScripMaster.get_scrip`.  For each
stock: `try: ls1.append(s1.scrip)`; on `AttributeError` filter the table,
raise `ValueError` if the result is empty, otherwise cache the result on the
stock (`s1.scrip = d2`) and append it.  Returns the stock list as mutated so
far together with either the collected list of per-stock tables or the raised
error; on error the remaining stocks are untouched. -/
def getScripLoop (data : List Row) : List Stock → List Stock × Except PyErr (List (List Row))
  | [] => ([], .ok [])
  | s :: rest =>
    match s.scrip with
    | some d =>
      let r := getScripLoop data rest
      (s :: r.1, r.2.map (fun ls => d :: ls))
    | none =>
      let d2 := matchesFor data s
      if d2.isEmpty then
        (s :: rest, .error (.valueError ("No Scrip found for " ++ s.symbol ++ " in scrip_master")))
      else
        let s2 := { s with scrip := some d2 }
        let r := getScripLoop data rest
        (s2 :: r.1, r.2.map (fun ls => d2 :: ls))

/-- The final `pd.concat(ls1)` of `get_scrip`: concatenating an empty list of
frames raises `ValueError("No objects to concatenate")`, otherwise the frames
are stacked. -/
def concatResult : Except PyErr (List (List Row)) → Except PyErr (List Row)
  | .error e => .error e
  | .ok ls1 => if ls1.isEmpty then .error (.valueError "No objects to concatenate") else .ok ls1.flatten

/-- `ScripMaster.get_scrip(self, stocklist)`.  The result triple is
(the scrip master afterwards, the stock list afterwards, the returned frame
or raised error); the method only ever reads `self.data` (`d1 = self.data`). -/
def ScripMaster.get_scrip (sm : ScripMaster) (stocklist : List Stock) :
    ScripMaster × List Stock × Except PyErr (List Row) :=
  let d1 := sm.data
  let res := getScripLoop d1 stocklist
  (sm, res.1, concatResult res.2)

/-- The effect of one successful loop iteration on a stock: a cached stock is
untouched, a fresh one gets its match list cached. -/
def resolveOne (data : List Row) (s : Stock) : Stock :=
  match s.scrip with
  | some _ => s
  | none => { s with scrip := some (matchesFor data s) }

/-- The table appended for a stock by one successful loop iteration. -/
def entryOf (data : List Row) (s : Stock) : List Row :=
  match s.scrip with
  | some d => d
  | none => matchesFor data s

theorem getScripLoop_nil (data : List Row) : getScripLoop data [] = ([], .ok []) := rfl

theorem getScripLoop_cons_cached (data : List Row) (s : Stock) (rest : List Stock)
    (d : List Row) (h : s.scrip = some d) :
    getScripLoop data (s :: rest) =
      (s :: (getScripLoop data rest).1,
        ((getScripLoop data rest).2).map (fun ls => d :: ls)) := by
  simp [getScripLoop, h]

theorem getScripLoop_cons_empty (data : List Row) (s : Stock) (rest : List Stock)
    (h1 : s.scrip = none) (h2 : matchesFor data s = []) :
    getScripLoop data (s :: rest) =
      (s :: rest, .error (.valueError ("No Scrip found for " ++ s.symbol ++ " in scrip_master"))) := by
  simp [getScripLoop, h1, h2]

theorem getScripLoop_cons_fresh (data : List Row) (s : Stock) (rest : List Stock)
    (h1 : s.scrip = none) (h2 : matchesFor data s ≠ []) :
    getScripLoop data (s :: rest) =
      ({ s with scrip := some (matchesFor data s) } :: (getScripLoop data rest).1,
        ((getScripLoop data rest).2).map (fun ls => matchesFor data s :: ls)) := by
  simp [getScripLoop, h1, h2]

theorem getScripLoop_all_ok (data : List Row) (l : List Stock)
    (h : ∀ s ∈ l, s.scrip = none → matchesFor data s ≠ []) :
    getScripLoop data l = (l.map (resolveOne data), .ok (l.map (entryOf data))) := by
  induction l with
  | nil => rfl
  | cons s rest ih =>
    have hrest := ih (fun t ht => h t (List.mem_cons_of_mem _ ht))
    cases hs : s.scrip with
    | some d =>
      rw [getScripLoop_cons_cached data s rest d hs, hrest]
      simp [resolveOne, entryOf, hs, Except.map]
    | none =>
      have hne := h s (List.mem_cons_self s rest) hs
      rw [getScripLoop_cons_fresh data s rest hs hne, hrest]
      simp [resolveOne, entryOf, hs, Except.map]

theorem getScripLoop_first_bad (data : List Row) (l1 : List Stock) (b : Stock) (l2 : List Stock)
    (h1 : ∀ s ∈ l1, s.scrip = none → matchesFor data s ≠ [])
    (hb1 : b.scrip = none) (hb2 : matchesFor data b = []) :
    getScripLoop data (l1 ++ b :: l2) =
      (l1.map (resolveOne data) ++ b :: l2,
        .error (.valueError ("No Scrip found for " ++ b.symbol ++ " in scrip_master"))) := by
  induction l1 with
  | nil => simpa using getScripLoop_cons_empty data b l2 hb1 hb2
  | cons s rest ih =>
    have hrest := ih (fun t ht => h1 t (List.mem_cons_of_mem _ ht))
    cases hs : s.scrip with
    | some d =>
      rw [List.cons_append, getScripLoop_cons_cached data s _ d hs, hrest]
      simp [resolveOne, hs, Except.map]
    | none =>
      have hne := h1 s (List.mem_cons_self s rest) hs
      rw [List.cons_append, getScripLoop_cons_fresh data s _ hs hne, hrest]
      simp [resolveOne, hs, Except.map]

theorem getScripLoop_idem (data : List Row) (l : List Stock) :
    ∀ st lss, getScripLoop data l = (st, .ok lss) → getScripLoop data st = (st, .ok lss) := by
  induction l with
  | nil =>
    intro st lss h
    rw [getScripLoop_nil] at h
    injection h with h1 h2
    injection h2 with h3
    subst h1; subst h3
    rfl
  | cons s rest ih =>
    intro st lss h
    cases hs : s.scrip with
    | some d =>
      rw [getScripLoop_cons_cached data s rest d hs] at h
      rcases hr : getScripLoop data rest with ⟨st0, res0⟩
      rw [hr] at h
      cases res0 with
      | error e => simp [Except.map] at h
      | ok lss0 =>
        simp only [Except.map] at h
        injection h with h1 h2
        injection h2 with h3
        subst h1; subst h3
        have hidem := ih st0 lss0 (by rw [hr])
        rw [getScripLoop_cons_cached data s st0 d hs, hidem]
        simp [Except.map]
    | none =>
      by_cases hm : matchesFor data s = []
      · rw [getScripLoop_cons_empty data s rest hs hm] at h
        injection h with h1 h2
        simp at h2
      · rw [getScripLoop_cons_fresh data s rest hs hm] at h
        rcases hr : getScripLoop data rest with ⟨st0, res0⟩
        rw [hr] at h
        cases res0 with
        | error e => simp [Except.map] at h
        | ok lss0 =>
          simp only [Except.map] at h
          injection h with h1 h2
          injection h2 with h3
          subst h1; subst h3
          have hidem := ih st0 lss0 (by rw [hr])
          rw [getScripLoop_cons_cached data { s with scrip := some (matchesFor data s) } st0
            (matchesFor data s) rfl, hidem]
          simp [Except.map]

/-- Concrete fixtures used by witnesses and counterexamples below. -/
def relianceRow : Row :=
  { Exch := "N", ExchType := "C", Symbol := "RELIANCE", Expiry := none,
    Series := "EQ", Scripcode := 2885, Name := "RELIANCE" }

/-- A second table row matching the same (exchange, segment, symbol) key with
series `EQ` but a different broker code. -/
def relianceRow2 : Row :=
  { Exch := "N", ExchType := "C", Symbol := "RELIANCE", Expiry := none,
    Series := "EQ", Scripcode := 999, Name := "RELIANCE" }

/-- A fresh (uncached) stock reference for RELIANCE on NSE cash. -/
def relianceStock : Stock :=
  { symbol := "RELIANCE", exchange := "N", exchange_type := "C" }

/-- A row for symbol FFF used in cache-related witnesses. -/
def rowF : Row :=
  { Exch := "N", ExchType := "C", Symbol := "FFF", Expiry := none,
    Series := "EQ", Scripcode := 101, Name := "FFF" }

/-- A fresh stock that resolves to `rowF`. -/
def stockF : Stock := { symbol := "FFF", exchange := "N", exchange_type := "C" }

/-- A stock already carrying a cached scrip entry. -/
def cachedStock : Stock :=
  { symbol := "FFF", exchange := "N", exchange_type := "C", scrip := some [rowF] }

/-- A stock whose symbol appears in no table row. -/
def badStockA : Stock := { symbol := "AAA", exchange := "N", exchange_type := "C" }

/-- A second unresolvable stock, with a different symbol. -/
def badStockB : Stock := { symbol := "BBB", exchange := "N", exchange_type := "C" }

/-- C1 (amended): if the stock list splits as `l1 ++ b :: l2` where every
stock of `l1` is resolvable (cached, or with a matching row) and `b` has no
cached scrip and no matching `EQ`/`XX` row, then `ScripMaster.get_scrip`
raises `ValueError("No Scrip found for <b.symbol> in scrip_master")` — the
message names the FIRST unresolvable stock — and the call returns no frame
for any stock in the list (the whole batch resolution aborts). -/
theorem getScrip_unresolved_aborts (sm : ScripMaster) (l1 : List Stock) (b : Stock)
    (l2 : List Stock)
    (h1 : ∀ s ∈ l1, s.scrip = none → matchesFor sm.data s ≠ [])
    (hb1 : b.scrip = none) (hb2 : matchesFor sm.data b = []) :
    (sm.get_scrip (l1 ++ b :: l2)).2.2 =
      .error (.valueError ("No Scrip found for " ++ b.symbol ++ " in scrip_master")) ∧
    ∀ rows : List Row, (sm.get_scrip (l1 ++ b :: l2)).2.2 ≠ .ok rows := by
  have hloop := getScripLoop_first_bad sm.data l1 b l2 h1 hb1 hb2
  constructor
  · show concatResult (getScripLoop sm.data (l1 ++ b :: l2)).2 = _
    rw [hloop]
    rfl
  · intro rows
    show concatResult (getScripLoop sm.data (l1 ++ b :: l2)).2 ≠ _
    rw [hloop]
    simp [concatResult]

/-- C1 witness: a single unresolvable stock against an empty table aborts the
batch with the `ValueError` naming its symbol. -/
theorem getScrip_unresolved_aborts_witness :
    badStockB.scrip = none ∧ matchesFor ([] : List Row) badStockB = [] ∧
    (ScripMaster.get_scrip ⟨[]⟩ ([] ++ badStockB :: [])).2.2 =
      .error (.valueError ("No Scrip found for " ++ badStockB.symbol ++ " in scrip_master")) :=
  ⟨rfl, rfl, (getScrip_unresolved_aborts ⟨[]⟩ [] badStockB [] (by simp) rfl rfl).1⟩

/-- C1 counterexample: with two unresolvable stocks in the list, `badStockB`
satisfies the claim's hypothesis (it is in the list, has no cached scrip and
no matching row), yet the raised message names `badStockA` — the first
unresolvable stock — and does not name the symbol `BBB` at all (the string
`"BBB"` does not occur in the message). -/
theorem getScrip_error_names_first_counterexample :
    badStockB ∈ [badStockA, badStockB] ∧
    badStockB.scrip = none ∧ matchesFor ([] : List Row) badStockB = [] ∧
    (ScripMaster.get_scrip ⟨[]⟩ [badStockA, badStockB]).2.2 =
      .error (.valueError "No Scrip found for AAA in scrip_master") ∧
    ¬ ("BBB".toList <:+: ("No Scrip found for AAA in scrip_master").toList) := by
  refine ⟨by simp, rfl, rfl, rfl, by decide⟩

/-- C2 (amended): for a fresh (uncached) stock, `get_scrip` returns ALL rows
of the table matching (exchange, exchange_type, symbol) with series `EQ` or
`XX` — at least one — or fails with the lookup `ValueError` when no row
matches; uniqueness of the match is not enforced by the code. -/
theorem getScrip_resolves_matching_rows (sm : ScripMaster) (s : Stock)
    (h : s.scrip = none) :
    (matchesFor sm.data s ≠ [] →
      (sm.get_scrip [s]).2.2 = .ok (matchesFor sm.data s) ∧
      1 ≤ (matchesFor sm.data s).length) ∧
    (matchesFor sm.data s = [] →
      (sm.get_scrip [s]).2.2 =
        .error (.valueError ("No Scrip found for " ++ s.symbol ++ " in scrip_master"))) := by
  constructor
  · intro hne
    constructor
    · show concatResult (getScripLoop sm.data [s]).2 = _
      rw [getScripLoop_cons_fresh sm.data s [] h hne]
      simp [getScripLoop, concatResult, Except.map]
    · exact List.length_pos.mpr hne
  · intro he
    show concatResult (getScripLoop sm.data [s]).2 = _
    rw [getScripLoop_cons_empty sm.data s [] h he]
    rfl

/-- C2 witness: resolving `StockRef("RELIANCE","N","C")` against a table with
exactly one matching `EQ` row returns exactly that row, whose broker code is
2885. -/
theorem getScrip_resolves_matching_rows_witness :
    relianceStock.scrip = none ∧
    matchesFor [relianceRow] relianceStock = [relianceRow] ∧
    (ScripMaster.get_scrip ⟨[relianceRow]⟩ [relianceStock]).2.2 = .ok [relianceRow] ∧
    relianceRow.Scripcode = 2885 := by
  have h2 : matchesFor [relianceRow] relianceStock = [relianceRow] := by decide
  refine ⟨rfl, h2, ?_, rfl⟩
  have h3 := (getScrip_resolves_matching_rows ⟨[relianceRow]⟩ relianceStock rfl).1
    (by rw [h2]; exact fun hc => List.noConfusion hc)
  rw [h2] at h3
  exact h3.1

/-- C2 counterexample: against a table holding TWO rows matching
(N, C, RELIANCE) with series `EQ`, the lookup neither fails nor resolves to
exactly one row — it succeeds and returns both rows. -/
theorem getScrip_multiple_rows_counterexample :
    (ScripMaster.get_scrip ⟨[relianceRow, relianceRow2]⟩ [relianceStock]).2.2 =
      .ok [relianceRow, relianceRow2] ∧
    [relianceRow, relianceRow2].length ≠ 1 := by
  exact ⟨rfl, by decide⟩

/-- What becoming "parsed" means for the `Expiry` cell: an absent cell stays
absent (`NaN` passes through `to_datetime` as `NaT`), a present cell is
replaced by its parse under the strict `"%Y-%m-%d %H:%M:%S"` format. -/
def expiryParsed : Option String → Option PyDateTime → Prop
  | none, e => e = none
  | some s, e => ∃ d, parseYmdHms s = some d ∧ e = some d

theorem mapM_except_ok {α β : Type} (f : α → Except PyErr β) :
    ∀ (l : List α) (out : List β), l.mapM f = .ok out →
      List.Forall₂ (fun a b => f a = .ok b) l out := by
  intro l
  induction l with
  | nil =>
    intro out h
    rw [List.mapM_nil] at h
    injection h with h1
    subst h1
    exact List.Forall₂.nil
  | cons a rest ih =>
    intro out h
    rw [List.mapM_cons] at h
    cases hfa : f a with
    | error e =>
      rw [hfa] at h
      simp [Bind.bind, Except.bind] at h
    | ok b =>
      rw [hfa] at h
      cases hrest : rest.mapM f with
      | error e =>
        rw [hrest] at h
        simp [Bind.bind, Except.bind] at h
      | ok bs =>
        rw [hrest] at h
        simp only [Bind.bind, Except.bind, Pure.pure, Except.pure] at h
        injection h with h1
        subst h1
        exact List.Forall₂.cons hfa (ih bs hrest)

theorem loadRow_ok_spec (raw : RawRow) (r : Row) (h : loadRow raw = .ok r) :
    r.Exch = raw.Exch ∧ r.ExchType = raw.ExchType ∧ r.Series = raw.Series ∧
    r.Scripcode = raw.Scripcode ∧ r.Name = pyStrUpper raw.Name ∧
    r.Symbol = pyStrUpper raw.Name ∧ expiryParsed raw.Expiry r.Expiry := by
  cases hE : raw.Expiry with
  | none =>
    rw [loadRow, hE] at h
    injection h with h1
    subst h1
    simp [expiryParsed]
  | some e =>
    simp only [loadRow, hE] at h
    cases hP : parseYmdHms e with
    | none => rw [hP] at h; cases h
    | some d =>
      rw [hP] at h
      injection h with h1
      subst h1
      exact ⟨rfl, rfl, rfl, rfl, rfl, rfl, d, hP, rfl⟩

/-- C6 (amended): when `ScripMaster` construction succeeds it retains all rows
(no row is dropped), parses the `Expiry` column (absent cells stay absent),
and sets BOTH the `Name` and the `Symbol` column of every row to the
uppercased `Name` of the source row — `self.data["Symbol"] = self.data["Name"]`
overwrites the symbol with the name, so the symbol casing ends up uppercase
only because the name it is replaced by does. All other columns are kept. -/
theorem load_normalizes_and_retains (rows : List RawRow) (sm : ScripMaster)
    (h : ScripMaster.load rows = .ok sm) :
    sm.data.length = rows.length ∧
    List.Forall₂ (fun (raw : RawRow) (r : Row) =>
      r.Exch = raw.Exch ∧ r.ExchType = raw.ExchType ∧ r.Series = raw.Series ∧
      r.Scripcode = raw.Scripcode ∧ r.Name = pyStrUpper raw.Name ∧
      r.Symbol = pyStrUpper raw.Name ∧ expiryParsed raw.Expiry r.Expiry)
      rows sm.data := by
  rw [ScripMaster.load] at h
  cases hm : rows.mapM loadRow with
  | error e => rw [hm] at h; cases h
  | ok out =>
    rw [hm] at h
    injection h with h1
    subst h1
    have hall := mapM_except_ok loadRow rows out hm
    exact ⟨(List.Forall₂.length_eq hall).symm,
      List.Forall₂.imp (fun {a b} hab => loadRow_ok_spec a b hab) hall⟩

/-- One raw CSV row whose symbol and name agree (the normal case). -/
def rawReliance : RawRow :=
  { Exch := "N", ExchType := "C", Symbol := "Reliance", Expiry := some "2023-01-05 14:30:00",
    Series := "EQ", Scripcode := 2885, Name := "Reliance" }

/-- The row `rawReliance` loads into. -/
def relianceLoaded : Row :=
  { Exch := "N", ExchType := "C", Symbol := "RELIANCE",
    Expiry := some ⟨2023, 1, 5, 14, 30, 0⟩, Series := "EQ",
    Scripcode := 2885, Name := "RELIANCE" }

/-- C6 witness: loading one row succeeds, keeps the row, parses its expiry and
uppercases its name and symbol. -/
theorem load_normalizes_and_retains_witness :
    ScripMaster.load [rawReliance] = .ok ⟨[relianceLoaded]⟩ ∧
    (ScripMaster.mk [relianceLoaded]).data.length = [rawReliance].length ∧
    List.Forall₂ (fun (raw : RawRow) (r : Row) =>
      r.Exch = raw.Exch ∧ r.ExchType = raw.ExchType ∧ r.Series = raw.Series ∧
      r.Scripcode = raw.Scripcode ∧ r.Name = pyStrUpper raw.Name ∧
      r.Symbol = pyStrUpper raw.Name ∧ expiryParsed raw.Expiry r.Expiry)
      [rawReliance] (ScripMaster.mk [relianceLoaded]).data := by
  have hload : ScripMaster.load [rawReliance] = .ok ⟨[relianceLoaded]⟩ := by decide
  have hspec := load_normalizes_and_retains [rawReliance] _ hload
  exact ⟨hload, hspec.1, hspec.2⟩

/-- A raw CSV row whose `Symbol` and `Name` cells differ. -/
def rawFooBar : RawRow :=
  { Exch := "N", ExchType := "C", Symbol := "foo", Expiry := none,
    Series := "EQ", Scripcode := 1, Name := "bar" }

/-- C6 counterexample: loading is NOT a casing normalization of the symbol —
for a row whose `Symbol` cell is `"foo"` and whose `Name` cell is `"bar"`, the
loaded symbol is `"BAR"` (the uppercased name), not `"FOO"`. -/
theorem load_symbol_overwrite_counterexample :
    (ScripMaster.load [rawFooBar]).map (fun sm => sm.data.map (fun r => r.Symbol)) =
      .ok ["BAR"] ∧
    pyStrUpper rawFooBar.Symbol = "FOO" ∧ ("BAR" : String) ≠ "FOO" := by
  exact ⟨rfl, rfl, by decide⟩

/-- C7: (1) a stock already carrying a cached scrip entry is answered from the
cache for EVERY table (so the table is not consulted), the stock is left
unchanged and the cached frame is returned; (2) a successful `get_scrip` is
idempotent: running it again on the updated stock list returns the same stock
states and the same rows, so resolving the same stocks twice in a session
yields the same rows as the first resolution. -/
theorem getScrip_cached_and_idempotent :
    (∀ (sm : ScripMaster) (s : Stock) (d : List Row), s.scrip = some d →
      sm.get_scrip [s] = (sm, [s], .ok d)) ∧
    (∀ (sm : ScripMaster) (l st : List Stock) (rows : List Row),
      sm.get_scrip l = (sm, st, .ok rows) → sm.get_scrip st = (sm, st, .ok rows)) := by
  constructor
  · intro sm s d hs
    show (sm, (getScripLoop sm.data [s]).1, concatResult (getScripLoop sm.data [s]).2) = _
    rw [getScripLoop_cons_cached sm.data s [] d hs]
    simp [getScripLoop, concatResult, Except.map]
  · intro sm l st rows h
    rcases hr : getScripLoop sm.data l with ⟨st0, res0⟩
    have hg : ScripMaster.get_scrip sm l = (sm, st0, concatResult res0) := by
      show (sm, (getScripLoop sm.data l).1, concatResult (getScripLoop sm.data l).2) = _
      rw [hr]
    rw [hg] at h
    injection h with ha hb
    injection hb with h1 h2
    subst h1
    cases res0 with
    | error e => simp [concatResult] at h2
    | ok lss0 =>
      by_cases hE : lss0.isEmpty
      · simp [concatResult, hE] at h2
      · simp only [concatResult, hE, Bool.false_eq_true, if_false] at h2
        injection h2 with h3
        have hidem := getScripLoop_idem sm.data l st0 lss0 (by rw [hr])
        show (sm, (getScripLoop sm.data st0).1, concatResult (getScripLoop sm.data st0).2) =
          (sm, st0, .ok rows)
        rw [hidem]
        simp [concatResult, hE, h3]

/-- C7 witness: a cached stock is answered from its cache against an empty
table, and repeating the call returns the same result. -/
theorem getScrip_cached_and_idempotent_witness :
    cachedStock.scrip = some [rowF] ∧
    ScripMaster.get_scrip ⟨[]⟩ [cachedStock] = (⟨[]⟩, [cachedStock], .ok [rowF]) ∧
    ScripMaster.get_scrip ⟨[rowF]⟩ [cachedStock] = (⟨[rowF]⟩, [cachedStock], .ok [rowF]) :=
  ⟨rfl, getScrip_cached_and_idempotent.1 ⟨[]⟩ cachedStock [rowF] rfl,
    getScrip_cached_and_idempotent.2 ⟨[rowF]⟩ [cachedStock] [cachedStock] [rowF]
      (getScrip_cached_and_idempotent.1 ⟨[rowF]⟩ cachedStock [rowF] rfl)⟩

/-- C8: `ScripMaster.get_scrip` returns the scrip master unchanged — whatever
the input stock list and whether it succeeds or raises — and `save` also
leaves it unchanged; no operation of the class writes `self.data`. -/
theorem scripMaster_data_readonly (sm : ScripMaster) (l : List Stock) :
    (sm.get_scrip l).1 = sm ∧ (sm.get_scrip l).1.data = sm.data ∧ sm.save.1 = sm :=
  ⟨rfl, rfl, rfl⟩

/-- C9: when `get_scrip` aborts on the first unresolvable stock `b`, the
stocks before `b` keep the state the loop gave them: every stock of `l1` that
was freshly resolved during this very call keeps its newly attached cached
scrip entry (the mutation is not rolled back), and the stocks after `b` are
untouched. -/
theorem getScrip_failure_keeps_caches (sm : ScripMaster) (l1 : List Stock) (b : Stock)
    (l2 : List Stock)
    (h1 : ∀ s ∈ l1, s.scrip = none → matchesFor sm.data s ≠ [])
    (hb1 : b.scrip = none) (hb2 : matchesFor sm.data b = []) :
    (sm.get_scrip (l1 ++ b :: l2)).2.1 = l1.map (resolveOne sm.data) ++ b :: l2 ∧
    ∀ s ∈ l1, s.scrip = none → (resolveOne sm.data s).scrip = some (matchesFor sm.data s) := by
  have hloop := getScripLoop_first_bad sm.data l1 b l2 h1 hb1 hb2
  constructor
  · show (getScripLoop sm.data (l1 ++ b :: l2)).1 = _
    rw [hloop]
  · intro s _ hs
    simp [resolveOne, hs]

/-- C9 witness: resolving `[stockF, badStockB]` against the one-row table
`[rowF]` aborts on `badStockB`, yet `stockF` — freshly resolved in the same
call — keeps its new cache `some [rowF]` in the returned stock list. -/
theorem getScrip_failure_keeps_caches_witness :
    stockF.scrip = none ∧ matchesFor [rowF] stockF ≠ [] ∧
    badStockB.scrip = none ∧ matchesFor [rowF] badStockB = [] ∧
    (ScripMaster.get_scrip ⟨[rowF]⟩ ([stockF] ++ badStockB :: [])).2.1 =
      [{ stockF with scrip := some [rowF] }] ++ badStockB :: [] := by
  have hm : matchesFor [rowF] stockF = [rowF] := by decide
  refine ⟨rfl, by decide, rfl, by decide, ?_⟩
  have h := (getScrip_failure_keeps_caches ⟨[rowF]⟩ [stockF] badStockB []
    (by intro s hsmem hsc; simp at hsmem; subst hsmem; decide) rfl (by decide)).1
  rw [h]
  simp [resolveOne, hm]
  rfl

/-! ### JSON values, as produced by `json.loads` -/

/-- A JSON value.  Number lexemes are kept verbatim (the embedded code never
inspects them). -/
inductive Json where
  | null
  | bool (b : Bool)
  | num (lexeme : String)
  | str (s : String)
  | arr (elems : List Json)
  | obj (fields : List (String × Json))

/-- Skip JSON whitespace. -/
def jsonSkipWs : List Char → List Char
  | [] => []
  | c :: cs => if c = ' ' ∨ c = '\n' ∨ c = '\t' ∨ c = '\r' then jsonSkipWs cs else c :: cs

/-- Simple escape resolution inside JSON strings (`\n`, `\t`, `\r`; any other
escaped character stands for itself — `\u` sequences are not expanded, which
no embedded claim depends on). -/
def jsonUnescape (e : Char) : Char :=
  if e = 'n' then '\n' else if e = 't' then '\t' else if e = 'r' then '\r' else e

/-- Scan a JSON string body after the opening quote; the accumulator is kept
reversed. -/
def jsonScanStringAux : List Char → List Char → Option (String × List Char)
  | _, [] => none
  | acc, c :: cs =>
    if c = '"' then some (String.mk acc.reverse, cs)
    else if c = '\\' then
      match cs with
      | [] => none
      | e :: cs2 => jsonScanStringAux (jsonUnescape e :: acc) cs2
    else jsonScanStringAux (c :: acc) cs

/-- Characters that may continue a JSON number lexeme. -/
def jsonIsNumChar (c : Char) : Bool :=
  c.isDigit || c = '-' || c = '+' || c = '.' || c = 'e' || c = 'E'

/-- Scan a number lexeme; the accumulator is kept reversed. -/
def jsonScanNum : List Char → List Char → String × List Char
  | acc, [] => (String.mk acc.reverse, [])
  | acc, c :: cs =>
    if jsonIsNumChar c then jsonScanNum (c :: acc) cs
    else (String.mk acc.reverse, c :: cs)

mutual

/-- Fuel-driven recursive-descent parser for one JSON value. -/
def jsonParseValue : Nat → List Char → Option (Json × List Char)
  | 0, _ => none
  | fuel + 1, cs =>
    match jsonSkipWs cs with
    | [] => none
    | c :: rest =>
      if c = '"' then
        (jsonScanStringAux [] rest).map (fun p => (Json.str p.1, p.2))
      else if c = '[' then
        match jsonSkipWs rest with
        | ']' :: rest2 => some (Json.arr [], rest2)
        | rest2 => jsonParseArrayItems fuel rest2 []
      else if c = '\x7b' then
        match jsonSkipWs rest with
        | '\x7d' :: rest2 => some (Json.obj [], rest2)
        | rest2 => jsonParseObjItems fuel rest2 []
      else if c = 't' then
        match rest with
        | 'r' :: 'u' :: 'e' :: rest2 => some (Json.bool true, rest2)
        | _ => none
      else if c = 'f' then
        match rest with
        | 'a' :: 'l' :: 's' :: 'e' :: rest2 => some (Json.bool false, rest2)
        | _ => none
      else if c = 'n' then
        match rest with
        | 'u' :: 'l' :: 'l' :: rest2 => some (Json.null, rest2)
        | _ => none
      else if jsonIsNumChar c then
        let p := jsonScanNum [c] rest
        some (Json.num p.1, p.2)
      else none

/-- Parse the items of a non-empty JSON array (the accumulator is reversed). -/
def jsonParseArrayItems : Nat → List Char → List Json → Option (Json × List Char)
  | 0, _, _ => none
  | fuel + 1, cs, acc =>
    match jsonParseValue fuel cs with
    | none => none
    | some (v, rest) =>
      match jsonSkipWs rest with
      | ',' :: rest2 => jsonParseArrayItems fuel rest2 (v :: acc)
      | ']' :: rest2 => some (Json.arr (v :: acc).reverse, rest2)
      | _ => none

/-- Parse the members of a non-empty JSON object (the accumulator is
reversed). -/
def jsonParseObjItems : Nat → List Char → List (String × Json) → Option (Json × List Char)
  | 0, _, _ => none
  | fuel + 1, cs, acc =>
    match jsonSkipWs cs with
    | '"' :: rest =>
      match jsonScanStringAux [] rest with
      | none => none
      | some (k, rest2) =>
        match jsonSkipWs rest2 with
        | ':' :: rest3 =>
          match jsonParseValue fuel rest3 with
          | none => none
          | some (v, rest4) =>
            match jsonSkipWs rest4 with
            | ',' :: rest5 => jsonParseObjItems fuel rest5 ((k, v) :: acc)
            | '\x7d' :: rest5 => some (Json.obj ((k, v) :: acc).reverse, rest5)
            | _ => none
        | _ => none
    | _ => none

end

/-- `json.loads` on a string expected to hold exactly one JSON value. -/
def jsonLoads (s : String) : Option Json :=
  match jsonParseValue (2 * s.length + 2) s.data with
  | none => none
  | some (v, rest) => if jsonSkipWs rest = [] then some v else none

/-- `pd.DataFrame(objects)` on a parsed JSON payload: a JSON array of objects
becomes the list of their field rows (an empty array yields the empty
frame). -/
def pdDataFrameOfJson : Json → Except PyErr (List (List (String × Json)))
  | Json.arr xs =>
    xs.mapM (fun x =>
      match x with
      | Json.obj fs => Except.ok fs
      | _ => Except.error (PyErr.valueError "DataFrame constructor not properly called"))
  | _ => Except.error (PyErr.valueError "DataFrame constructor not properly called")

/-! ### The session client `Client5paisa` -/

/-- One raw candle of the historical-data JSON response
(`response["data"]["candles"]`): a 6-column record whose first entry is the
timestamp string. -/
structure Candle where
  Datetime : String
  Open : Int
  High : Int
  Low : Int
  Close : Int
  Volume : Int
deriving DecidableEq, Repr

/-- The session client.  Login and the websocket handle live in the wrapped
`py5paisa` SDK; the fields kept here are the ones the embedded methods read.
`scrip_master` is `none` when no `ScripMaster` instance was supplied. -/
structure Client5paisa where
  scrip_master : Option ScripMaster
  client_code : String
  Jwt_token : String
  HISTORICAL_DATA_ROUTE : String
deriving DecidableEq, Repr

/-- The fixed allowed set of time granularities of `historical_data`. -/
def timeList : List String := ["1m", "5m", "10m", "15m", "30m", "60m", "1d"]

/-- `Client5paisa.historical_data`.  `session` is the HTTP oracle: it maps the
request url to the candle list of the JSON response (the jwt headers are
derived from `client_code`/`Jwt_token` and do not influence the shape of the
result).  The result pairs the list of urls actually requested with the
returned value: the fixed sentinel string (`.inl`) for an invalid granularity
— returned, not raised, and before any request — or the reshaped frame
(`.inr`).  An empty candle list makes the column assignment
`df.columns = [...]` fail, and an unparseable timestamp makes
`pd.to_datetime` fail. -/
def Client5paisa.historical_data (session : String → List Candle) (c : Client5paisa)
    (Exch ExchangeSegment : String) (ScripCode : Int) (time From To : String) :
    List String × Except PyErr (Sum String (List Bar)) :=
  let url := c.HISTORICAL_DATA_ROUTE ++ Exch ++ "/" ++ ExchangeSegment ++ "/" ++
    toString ScripCode ++ "/" ++ time ++ "?from=" ++ From ++ "&end=" ++ To
  if timeList.contains time = false then
    ([], .ok (.inl "Invalid Time Frame. it should be within [1m,5m,10m,15m,30m,60m,1d]."))
  else
    let candleList := session url
    if candleList.isEmpty then
      ([url], .error (.valueError "Length mismatch: Expected axis has 0 elements, new values have 6 elements"))
    else
      match candleList.mapM (fun cd =>
        match pdToDatetime cd.Datetime with
        | none => Except.error (PyErr.valueError ("Unknown datetime string format " ++ cd.Datetime))
        | some t => Except.ok { Datetime := t, Open := cd.Open, High := cd.High,
                                Low := cd.Low, Close := cd.Close, Volume := cd.Volume : Bar }) with
      | .error e => ([url], .error e)
      | .ok bars => ([url], .ok (.inr bars))

/-- `scrip.loc[s1.symbol, "Scripcode"]` on the concatenated scrip frame
(indexed by `Name` via `set_index("Name")`): the `Scripcode` of the row
labelled by the symbol, `KeyError` when the label is absent.  With duplicate
labels pandas would return a Series; the claims do not exercise duplicates
and the model takes the first labelled row. -/
def locScripcode (scrip : List Row) (sym : String) : Except PyErr Int :=
  match scrip.filter (fun r => r.Name == sym) with
  | [] => .error (.keyError sym)
  | r :: _ => .ok r.Scripcode

/-- Modelled from the spec: `Stock.save_historical_data` is defined in
`src/finmetry/stock_base.py`, which is not under the provided sources; per
spec §4.2 and §6 it persists the instrument's table to
`<root>/<interval>/<symbol>.csv` and keeps the last-fetched table on the
stock.  A write is modelled as an (interval, symbol, payload) record. -/
def saveHistoricalData (s : Stock) (payload : Sum String (List Bar)) (interval : String) :
    Stock × (String × String × Sum String (List Bar)) :=
  ({ s with data := some payload }, (interval, s.symbol, payload))

/-- The `for s1 in stocklist` loop of `download_historical_data`: look the
symbol up in the resolved scrip frame, fetch its candles, save them.  The
result pairs the urls requested so far with either the raised error or the
final stock states and writes. -/
def downloadLoop (session : String → List Candle) (c : Client5paisa) (scrip : List Row)
    (interval start end_ : String) :
    List Stock →
      List String × Except PyErr (List Stock × List (String × String × Sum String (List Bar)))
  | [] => ([], .ok ([], []))
  | s :: rest =>
    match locScripcode scrip s.symbol with
    | .error e => ([], .error e)
    | .ok code =>
      let hres := c.historical_data session s.exchange s.exchange_type code interval start end_
      match hres.2 with
      | .error e => (hres.1, .error e)
      | .ok payload =>
        let sw := saveHistoricalData s payload interval
        let r := downloadLoop session c scrip interval start end_ rest
        (hres.1 ++ r.1, r.2.map (fun p => (sw.1 :: p.1, sw.2 :: p.2)))

/-- `Client5paisa.download_historical_data`: first `self.__check_scrip_master()`
— a `TypeError` when `scrip_master` is `None`, before anything else — then
`get_scrip`, then one historical request per stock, each saved.  `start` and
`end` are already strings here (`datetime` arguments are `strftime`-converted
to the same format first). -/
def Client5paisa.download_historical_data (session : String → List Candle)
    (c : Client5paisa) (stocklist : List Stock) (interval start end_ : String) :
    List String × Except PyErr (List Stock × List (String × String × Sum String (List Bar))) :=
  match c.scrip_master with
  | none => ([], .error (.typeError "scrip_master is None. Please provide ScripMaster instance."))
  | some sm =>
    let g := sm.get_scrip stocklist
    match g.2.2 with
    | .error e => ([], .error e)
    | .ok scrip => downloadLoop session c scrip interval start end_ g.2.1

/-- One record of the depth request payload, after
`rename(columns={"Exch": "Exchange", "ExchType": "ExchangeType"})`. -/
structure DepthRecord where
  Exchange : String
  ExchangeType : String
  Symbol : String
deriving DecidableEq, Repr

/-- `Client5paisa.get_market_depth`: resolve scrips (`self.scrip_master` is
accessed without the `None` check, so a missing scrip master raises
`AttributeError`), send one batched depth request, then attach the capture
timestamp and the symbols to the response rows (`d1["Symbol"] = syms` needs
the lengths to agree).  Depth payload rows are opaque (`fetchDepth`
oracle). -/
def Client5paisa.get_market_depth (fetchDepth : List DepthRecord → List String)
    (now : PyDateTime) (c : Client5paisa) (stocklist : List Stock) :
    List (List DepthRecord) × Except PyErr (List Stock × List (String × PyDateTime × String)) :=
  match c.scrip_master with
  | none => ([], .error (.attributeError "NoneType object has no attribute get_scrip"))
  | some sm =>
    let g := sm.get_scrip stocklist
    match g.2.2 with
    | .error e => ([], .error e)
    | .ok a =>
      let syms := a.map (fun r => r.Symbol)
      let recs := a.map (fun r =>
        { Exchange := r.Exch, ExchangeType := r.ExchType, Symbol := r.Symbol : DepthRecord })
      let d1 := fetchDepth recs
      if d1.length = syms.length then
        ([recs], .ok (g.2.1, List.zipWith (fun p s2 => (p, now, s2)) d1 syms))
      else
        ([recs], .error (.valueError "Length of values does not match length of index"))

/-- One record of the feed request payload (columns kept as
`Exch`/`ExchType`/`Symbol`). -/
structure FeedRecord where
  Exch : String
  ExchType : String
  Symbol : String
deriving DecidableEq, Repr

/-- `Client5paisa.get_market_feed`: like depth, without the symbol column
(`d1["Datetime"] = now` attaches the capture timestamp to every row). -/
def Client5paisa.get_market_feed (fetchFeed : List FeedRecord → List String)
    (now : PyDateTime) (c : Client5paisa) (stocklist : List Stock) :
    List (List FeedRecord) × Except PyErr (List Stock × List (String × PyDateTime)) :=
  match c.scrip_master with
  | none => ([], .error (.attributeError "NoneType object has no attribute get_scrip"))
  | some sm =>
    let g := sm.get_scrip stocklist
    match g.2.2 with
    | .error e => ([], .error e)
    | .ok a =>
      let recs := a.map (fun r =>
        { Exch := r.Exch, ExchType := r.ExchType, Symbol := r.Symbol : FeedRecord })
      let d1 := fetchFeed recs
      ([recs], .ok (g.2.1, d1.map (fun p => (p, now))))

/-- One record of the websocket subscription payload, after
`rename(columns={"Scripcode": "ScripCode"})`. -/
structure ScripRecord where
  Exch : String
  ExchType : String
  ScripCode : Int
deriving DecidableEq, Repr

/-- Modelled from the spec: `Request_Feed` belongs to the wrapped `py5paisa`
SDK (not part of this repository); per spec §4.2 the subscription payload
carries one `MarketFeedData` entry per resolved instrument record, together
with the requested feed type and operation. -/
structure MarketFeedRequest where
  Method : String
  Operation : String
  MarketFeedData : List ScripRecord
deriving DecidableEq, Repr

/-- `self.Request_Feed(feed_type, "s", a)`. -/
def Request_Feed (method operation : String) (req_list : List ScripRecord) : MarketFeedRequest :=
  { Method := method, Operation := operation, MarketFeedData := req_list }

/-- The `"md"` receive loop: one `recv` per `MarketFeedData` entry, each
fragment re-wrapped as `",{" + msg[1:-1] + "}"`.  `none` when the stream
holds fewer messages than required (the Python read would block forever). -/
def recvLoopMd : Nat → List String → String → Option (String × List String)
  | 0, msgs, acc => some (acc, msgs)
  | _ + 1, [], _ => none
  | k + 1, m :: rest, acc =>
    recvLoopMd k rest (acc ++ ",\x7b" ++ pyStrDropRight (pyStrDrop m 1) 1 ++ "\x7d")

/-- The `"mf"` receive loop: fragments joined as `"," + msg[1:-1]`. -/
def recvLoopMf : Nat → List String → String → Option (String × List String)
  | 0, msgs, acc => some (acc, msgs)
  | _ + 1, [], _ => none
  | k + 1, m :: rest, acc =>
    recvLoopMf k rest (acc ++ "," ++ pyStrDropRight (pyStrDrop m 1) 1)

/-- `Client5paisa.get_market_data`: resolve scrips (again without the `None`
check), build the subscription payload, open the websocket and send it, run
the two independent `if feed_type == "md"` / `if feed_type == "mf"` receive
loops, close, wrap the fragments as `"[" + d1[1:] + "]"` and parse with
`json.loads` into a frame.  `messages` is the inbound stream oracle.  The
result is (subscription payloads sent, number of messages read, and `none`
when the read blocks forever, otherwise the parse outcome). -/
def Client5paisa.get_market_data (messages : List String) (c : Client5paisa)
    (stocklist : List Stock) (feed_type : String) :
    List MarketFeedRequest × Nat × Option (Except PyErr (List (List (String × Json)))) :=
  match c.scrip_master with
  | none => ([], 0, some (.error (.attributeError "NoneType object has no attribute get_scrip")))
  | some sm =>
    let g := sm.get_scrip stocklist
    match g.2.2 with
    | .error e => ([], 0, some (.error e))
    | .ok a =>
      let recs := a.map (fun r =>
        { Exch := r.Exch, ExchType := r.ExchType, ScripCode := r.Scripcode : ScripRecord })
      let mf_list := Request_Feed feed_type "s" recs
      let n := mf_list.MarketFeedData.length
      match (if feed_type == "md" then recvLoopMd n messages "" else some ("", messages)) with
      | none => ([mf_list], messages.length, none)
      | some (d1a, rest1) =>
        match (if feed_type == "mf" then recvLoopMf n rest1 d1a else some (d1a, rest1)) with
        | none => ([mf_list], messages.length, none)
        | some (d1b, rest2) =>
          let consumed := messages.length - rest2.length
          let d1 := "[" ++ pyStrDrop d1b 1 ++ "]"
          match jsonLoads d1 with
          | none => ([mf_list], consumed, some (.error (.valueError "Expecting value: line 1 column 1")))
          | some v =>
            match pdDataFrameOfJson v with
            | .error e => ([mf_list], consumed, some (.error e))
            | .ok rows => ([mf_list], consumed, some (.ok rows))

/-- One row of the expiry frame built by `get_weekly_option_expiry`:
`Timestamp = int(x.split("+")[0].split("(")[-1])` and
`Date = date.fromtimestamp(Timestamp // 1000)`. -/
structure ExpiryRow where
  ExpiryDate : String
  Timestamp : Int
  Date : Int
deriving DecidableEq, Repr

/-- `datetime.date.fromtimestamp` on whole seconds, abstracted to a UTC day
index (the Python call uses the machine's local timezone; the claims depend
only on equality of dates derived through this same map). -/
def pyDateFromTimestamp (sec : Int) : Int := Int.fdiv sec 86400

/-- One row of the `d1["Expiry"]` response reshaped by
`get_weekly_option_expiry`. -/
def expiryRowOfString (x : String) : Except PyErr ExpiryRow :=
  let t := (pySplit ((pySplit x '+').headD "") '(').getLastD ""
  match pyToInt t with
  | none => .error (.valueError ("invalid literal for int() with base 10: " ++ t))
  | some ts => .ok { ExpiryDate := x, Timestamp := ts,
                     Date := pyDateFromTimestamp (Int.fdiv ts 1000) }

/-- `Client5paisa.get_weekly_option_expiry`: one `get_expiry("N", "NIFTY")`
REST request (`getExpiryResp` is the oracle for the returned `ExpiryDate`
strings), reshaped into timestamp and date columns. -/
def Client5paisa.get_weekly_option_expiry (getExpiryResp : List String) :
    List String × Except PyErr (List ExpiryRow) :=
  (["get_expiry N NIFTY"], getExpiryResp.mapM expiryRowOfString)

/-- `Client5paisa.get_option_chain`: with `update=False` and a cached chain on
the stock, return the cache (`return stock.option_chain`) with no request;
otherwise (an `AttributeError` from the missing cache, or the deliberate
`raise AttributeError` when `update=True`) fetch the expiry list, take the
first row whose `Date` equals the requested expiry date (`IndexError` when
none matches), issue the option-chain request for its timestamp, store the
result on the stock and return it.  `expiry_date` is the already-normalized
date (a string argument is `strptime("%Y-%m-%d")`-parsed to a date first);
`chainResp` is the oracle for `super().get_option_chain(...)["Options"]`,
keyed by exchange, symbol and expiry timestamp. -/
def Client5paisa.get_option_chain (getExpiryResp : List String)
    (chainResp : String → String → Int → List String)
    (stock : Stock) (expiry_date : Int) (update : Bool) :
    List String × Except PyErr (List String) × Stock :=
  let fetchPath : List String × Except PyErr (List String) × Stock :=
    match (Client5paisa.get_weekly_option_expiry getExpiryResp).2 with
    | .error e => (["get_expiry N NIFTY"], .error e, stock)
    | .ok d1 =>
      match (d1.filter (fun r => r.Date == expiry_date)).head? with
      | none =>
        (["get_expiry N NIFTY"],
          .error (.indexError "single positional indexer is out-of-bounds"), stock)
      | some row =>
        let d2 := chainResp stock.exchange stock.symbol row.Timestamp
        (["get_expiry N NIFTY", "get_option_chain " ++ stock.exchange ++ " " ++ stock.symbol],
          .ok d2, { stock with option_chain := some d2 })
  match update, stock.option_chain with
  | false, some ch => ([], .ok ch, stock)
  | _, _ => fetchPath

/-- A client constructed without a `ScripMaster`. -/
def clientNoMaster : Client5paisa :=
  { scrip_master := none, client_code := "CC", Jwt_token := "JWT",
    HISTORICAL_DATA_ROUTE := "https://route/" }

/-- A client whose scrip master holds the one-row table `[rowF]`. -/
def clientWithMaster : Client5paisa :=
  { scrip_master := some ⟨[rowF]⟩, client_code := "CC", Jwt_token := "JWT",
    HISTORICAL_DATA_ROUTE := "https://route/" }

/-- `true` when the outcome is a raised `TypeError`. -/
def resultRaisesTypeError {α : Type} : Except PyErr α → Bool
  | .error e => e.isTypeError
  | .ok _ => false

/-- C3: for every time-granularity string outside `{1m,5m,10m,15m,30m,60m,1d}`,
`historical_data` raises nothing and issues no HTTP request; it returns the
fixed descriptive sentinel string instead of a table. -/
theorem historicalData_invalid_time_sentinel (session : String → List Candle)
    (c : Client5paisa) (Exch ExchangeSegment : String) (ScripCode : Int)
    (time From To : String) (h : timeList.contains time = false) :
    c.historical_data session Exch ExchangeSegment ScripCode time From To =
      ([], .ok (.inl "Invalid Time Frame. it should be within [1m,5m,10m,15m,30m,60m,1d].")) := by
  have hnotmem : time ∉ timeList := by simpa using h
  simp [Client5paisa.historical_data, hnotmem]

/-- C3 witness: the granularity `"2m"` is outside the allowed set and yields
the sentinel with an empty request list. -/
theorem historicalData_invalid_time_sentinel_witness :
    timeList.contains "2m" = false ∧
    clientNoMaster.historical_data (fun _ => []) "N" "C" 2885 "2m" "2023-01-01" "2023-03-30" =
      ([], .ok (.inl "Invalid Time Frame. it should be within [1m,5m,10m,15m,30m,60m,1d].")) :=
  ⟨rfl, historicalData_invalid_time_sentinel (fun _ => []) clientNoMaster "N" "C" 2885 "2m"
    "2023-01-01" "2023-03-30" rfl⟩

/-- C4 (amended): with no scrip master configured, every data operation fails
loudly before issuing any request — `download_historical_data` raises
`TypeError` via `__check_scrip_master`, while `get_market_depth`,
`get_market_feed` and `get_market_data` (which skip that check and call
`get_scrip` directly on `None`) raise `AttributeError`. -/
theorem missing_scrip_master_fails_loudly (c : Client5paisa) (h : c.scrip_master = none)
    (session : String → List Candle) (fetchDepth : List DepthRecord → List String)
    (fetchFeed : List FeedRecord → List String) (messages : List String)
    (now : PyDateTime) (stocklist : List Stock) (interval start end_ feed_type : String) :
    c.download_historical_data session stocklist interval start end_ =
      ([], .error (.typeError "scrip_master is None. Please provide ScripMaster instance.")) ∧
    c.get_market_depth fetchDepth now stocklist =
      ([], .error (.attributeError "NoneType object has no attribute get_scrip")) ∧
    c.get_market_feed fetchFeed now stocklist =
      ([], .error (.attributeError "NoneType object has no attribute get_scrip")) ∧
    c.get_market_data messages stocklist feed_type =
      ([], 0, some (.error (.attributeError "NoneType object has no attribute get_scrip"))) := by
  refine ⟨?_, ?_, ?_, ?_⟩
  · simp [Client5paisa.download_historical_data, h]
  · simp [Client5paisa.get_market_depth, h]
  · simp [Client5paisa.get_market_feed, h]
  · simp [Client5paisa.get_market_data, h]

/-- C4 witness: the four operations on a concrete client with
`scrip_master = None`, each failing before any request. -/
theorem missing_scrip_master_fails_loudly_witness :
    clientNoMaster.scrip_master = none ∧
    clientNoMaster.download_historical_data (fun _ => []) [relianceStock] "1d"
        "2023-01-01" "2023-03-30" =
      ([], .error (.typeError "scrip_master is None. Please provide ScripMaster instance.")) ∧
    clientNoMaster.get_market_data [] [relianceStock] "md" =
      ([], 0, some (.error (.attributeError "NoneType object has no attribute get_scrip"))) :=
  ⟨rfl,
    (missing_scrip_master_fails_loudly clientNoMaster rfl (fun _ => []) (fun _ => [])
      (fun _ => []) [] ⟨2023, 1, 1, 0, 0, 0⟩ [relianceStock] "1d" "2023-01-01"
      "2023-03-30" "md").1,
    (missing_scrip_master_fails_loudly clientNoMaster rfl (fun _ => []) (fun _ => [])
      (fun _ => []) [] ⟨2023, 1, 1, 0, 0, 0⟩ [relianceStock] "1d" "2023-01-01"
      "2023-03-30" "md").2.2.2⟩

/-- C4 counterexample: `get_market_depth` on a client with no scrip master
does NOT fail with a `TypeError` — it raises an `AttributeError` (the `None`
check is only performed by `download_historical_data`). -/
theorem getMarketDepth_not_typeError_counterexample :
    clientNoMaster.scrip_master = none ∧
    (clientNoMaster.get_market_depth (fun _ => []) ⟨2023, 1, 1, 0, 0, 0⟩ [relianceStock]).2 =
      .error (.attributeError "NoneType object has no attribute get_scrip") ∧
    resultRaisesTypeError
      (clientNoMaster.get_market_depth (fun _ => []) ⟨2023, 1, 1, 0, 0, 0⟩ [relianceStock]).2 =
      false :=
  ⟨rfl, rfl, rfl⟩

/-- C5: option-chain caching of `get_option_chain` — (1) with `update=False`
and a previously stored chain on the stock, the cached table is returned with
no request issued and the stock unchanged; (2) with `update=False` and no
cached chain, the fetch is still performed (expiry request then chain
request) and its result is stored on the stock; (3) with `update=True` a
fresh fetch is performed and stored even when a cache exists. -/
theorem getOptionChain_cache_spec (getExpiryResp : List String)
    (chainResp : String → String → Int → List String) (stock : Stock)
    (expiry_date : Int) (d1 : List ExpiryRow) (row : ExpiryRow)
    (hE : (Client5paisa.get_weekly_option_expiry getExpiryResp).2 = .ok d1)
    (hRow : (d1.filter (fun r => r.Date == expiry_date)).head? = some row) :
    (∀ ch, stock.option_chain = some ch →
      Client5paisa.get_option_chain getExpiryResp chainResp stock expiry_date false =
        ([], .ok ch, stock)) ∧
    (stock.option_chain = none →
      Client5paisa.get_option_chain getExpiryResp chainResp stock expiry_date false =
        (["get_expiry N NIFTY", "get_option_chain " ++ stock.exchange ++ " " ++ stock.symbol],
          .ok (chainResp stock.exchange stock.symbol row.Timestamp),
          { stock with option_chain := some (chainResp stock.exchange stock.symbol row.Timestamp) })) ∧
    Client5paisa.get_option_chain getExpiryResp chainResp stock expiry_date true =
      (["get_expiry N NIFTY", "get_option_chain " ++ stock.exchange ++ " " ++ stock.symbol],
        .ok (chainResp stock.exchange stock.symbol row.Timestamp),
        { stock with option_chain := some (chainResp stock.exchange stock.symbol row.Timestamp) }) := by
  refine ⟨?_, ?_, ?_⟩
  · intro ch hch
    simp [Client5paisa.get_option_chain, hch]
  · intro hch
    simp [Client5paisa.get_option_chain, hch, hE, hRow]
  · cases hch : stock.option_chain with
    | none => simp [Client5paisa.get_option_chain, hch, hE, hRow]
    | some ch => simp [Client5paisa.get_option_chain, hch, hE, hRow]

/-- The expiry-list response used by the C5 witness. -/
def expiryRespFixture : List String := ["/Date(86400000+0530)/"]

/-- The reshaped expiry row of `expiryRespFixture`: timestamp 86400000 ms,
day index 1. -/
def expiryRowFixture : ExpiryRow :=
  { ExpiryDate := "/Date(86400000+0530)/", Timestamp := 86400000, Date := 1 }

/-- A stock already carrying a cached option chain. -/
def cachedChainStock : Stock :=
  { symbol := "NIFTY", exchange := "N", exchange_type := "D", option_chain := some ["CACHED"] }

/-- C5 witness: cache hit returns the cache with no request; cache miss with
`update=False` still fetches and stores; `update=True` refetches over a
cache. -/
theorem getOptionChain_cache_spec_witness :
    (Client5paisa.get_weekly_option_expiry expiryRespFixture).2 = .ok [expiryRowFixture] ∧
    (([expiryRowFixture] : List ExpiryRow).filter (fun r => r.Date == 1)).head? =
      some expiryRowFixture ∧
    cachedChainStock.option_chain = some ["CACHED"] ∧
    Client5paisa.get_option_chain expiryRespFixture (fun _ _ _ => ["OC"]) cachedChainStock 1 false =
      ([], .ok ["CACHED"], cachedChainStock) ∧
    relianceStock.option_chain = none ∧
    Client5paisa.get_option_chain expiryRespFixture (fun _ _ _ => ["OC"]) relianceStock 1 false =
      (["get_expiry N NIFTY", "get_option_chain N RELIANCE"], .ok ["OC"],
        { relianceStock with option_chain := some ["OC"] }) ∧
    Client5paisa.get_option_chain expiryRespFixture (fun _ _ _ => ["OC"]) cachedChainStock 1 true =
      (["get_expiry N NIFTY", "get_option_chain N NIFTY"], .ok ["OC"],
        { cachedChainStock with option_chain := some ["OC"] }) := by
  have hE : (Client5paisa.get_weekly_option_expiry expiryRespFixture).2 =
      .ok [expiryRowFixture] := rfl
  have hRow : (([expiryRowFixture] : List ExpiryRow).filter (fun r => r.Date == 1)).head? =
      some expiryRowFixture := rfl
  have hthm := getOptionChain_cache_spec expiryRespFixture (fun _ _ _ => ["OC"])
    cachedChainStock 1 [expiryRowFixture] expiryRowFixture hE hRow
  have hthm2 := getOptionChain_cache_spec expiryRespFixture (fun _ _ _ => ["OC"])
    relianceStock 1 [expiryRowFixture] expiryRowFixture hE hRow
  exact ⟨hE, hRow, rfl, hthm.1 ["CACHED"] rfl, rfl, hthm2.2.1 rfl, hthm.2.2⟩

/-- C10: for a stock list that resolves successfully and a `feed_type` that is
neither `"md"` nor `"mf"`, `get_market_data` still sends the one subscription
request built from the resolved records, reads zero messages off the stream,
and returns the empty frame obtained by parsing the empty JSON array
`"[]"`. -/
theorem getMarketData_invalid_feed_type (messages : List String) (c : Client5paisa)
    (sm : ScripMaster) (stocklist : List Stock) (feed_type : String) (a : List Row)
    (hm : c.scrip_master = some sm)
    (hok : (sm.get_scrip stocklist).2.2 = .ok a)
    (h1 : (feed_type == "md") = false) (h2 : (feed_type == "mf") = false) :
    c.get_market_data messages stocklist feed_type =
      ([Request_Feed feed_type "s" (a.map (fun r =>
          { Exch := r.Exch, ExchType := r.ExchType, ScripCode := r.Scripcode : ScripRecord }))],
        0, some (.ok [])) := by
  have hjson : jsonLoads ("[" ++ pyStrDrop "" 1 ++ "]") = some (Json.arr []) := rfl
  simp [Client5paisa.get_market_data, hm, hok, h1, h2, hjson, pdDataFrameOfJson,
    List.mapM.loop, Pure.pure, Except.pure]

/-- C10 witness: a resolvable one-stock list with `feed_type = "xx"` sends the
subscription and yields the empty frame with zero reads. -/
theorem getMarketData_invalid_feed_type_witness :
    clientWithMaster.scrip_master = some ⟨[rowF]⟩ ∧
    ((⟨[rowF]⟩ : ScripMaster).get_scrip [cachedStock]).2.2 = .ok [rowF] ∧
    (("xx" == "md") = false) ∧ (("xx" == "mf") = false) ∧
    clientWithMaster.get_market_data [] [cachedStock] "xx" =
      ([Request_Feed "xx" "s" [{ Exch := "N", ExchType := "C", ScripCode := 101 }]],
        0, some (.ok [])) := by
  have hok : ((⟨[rowF]⟩ : ScripMaster).get_scrip [cachedStock]).2.2 = .ok [rowF] := rfl
  refine ⟨rfl, hok, rfl, rfl, ?_⟩
  exact getMarketData_invalid_feed_type [] clientWithMaster ⟨[rowF]⟩ [cachedStock] "xx"
    [rowF] rfl hok rfl rfl
